import Mathlib

/-!
Verification of the checkout form component (src/src/components/orders/CheckoutForm.tsx).

The component is embedded shallowly: the React state hooks become fields of
`CheckoutState`, the event handlers `handleChange` and `handleSubmit` become
pure state-transition functions (with `handleSubmit` additionally returning
the list of calls it makes to the external confirmation capability), the
mount-time intent request becomes `createPaymentIntentRequest`, and the JSX
render becomes projection functions (`submitButtonDisabled`, `spinnerShown`,
`successPanelVisible`, `displayedError`, `totalHeading`).

A session is a sequence of UI events processed by `step`; the browser
semantics that a disabled submit button cannot fire the form is part of
`step`'s submit case.
-/

namespace CheckoutForm

/-- The component-local React state:
`succeeded`, `error`, `processing`, `disabled`, `clientSecret`
(lines 22-26 of CheckoutForm.tsx). `error` is `Option String` mirroring
`null | string`. -/
structure CheckoutState where
  succeeded : Bool
  error : Option String
  processing : Bool
  disabled : Bool
  clientSecret : String
deriving Repr, DecidableEq

/-- The initial hook values: `useState(false)`, `useState(null)`,
`useState(false)`, `useState(true)`, `useState("")`. -/
def initialState : CheckoutState :=
  { succeeded := false
    error := none
    processing := false
    disabled := true
    clientSecret := "" }

/-- One entry of the `coursesToBuy` array sent to the backend. -/
structure CourseItem where
  id : String
deriving Repr, DecidableEq

/-- The outbound HTTP request built by the mount-time effect
(lines 30-50): method, URL, and JSON body fields. -/
structure IntentRequest where
  method : String
  url : String
  coursesToBuy : List CourseItem
  price : Nat
deriving Repr, DecidableEq

/-- The request issued by the effect: a POST to the fixed URL with body
`coursesToBuy = Array(numCourses).fill(\x7bid: "course"\x7d)` and
`price = 2599` (lines 32-41). -/
def createPaymentIntentRequest (numCourses : Nat) : IntentRequest :=
  { method := "POST"
    url := "https://localhost:5001/payment/create-payment-intent"
    coursesToBuy := List.replicate numCourses { id := "course" }
    price := 2599 }

/-- On a successful intent response the effect stores the returned
`clientSecret` verbatim: `setClientSecret(data.clientSecret)` (line 48). -/
def storeClientSecret (s : CheckoutState) (secret : String) : CheckoutState :=
  { s with clientSecret := secret }

/-- A change notification from the hosted card widget: the `empty` flag and
the optional error message (`event.error.message`). -/
structure CardChangeEvent where
  empty : Bool
  error : Option String
deriving Repr, DecidableEq

/-- The `handleChange` handler (lines 58-66):
`setDisabled(event.empty)` and
`setError(event.error ? event.error.message : "")`. -/
def handleChange (s : CheckoutState) (event : CardChangeEvent) : CheckoutState :=
  { s with
    disabled := event.empty
    error := some (match event.error with
      | some m => m
      | none => "") }

/-- The `elements` handle when available; `cardElement` stands for the
opaque card instrument returned by `elements.getElement(CardElement)`. -/
structure ElementsHandle where
  cardElement : String
deriving Repr, DecidableEq

/-- One call made to the external confirmation capability
`stripe.confirmCardPayment(clientSecret, payment_method.card)` (line 80). -/
structure ConfirmCall where
  secret : String
  card : String
deriving Repr, DecidableEq

/-- The environment a submission sees: whether the `stripe` handle is
non-null, the `elements` handle (or `none`), and the response the
confirmation capability would return for the call made in this attempt
(`some msg` when `payload.error` is present with `payload.error.message
= msg`, `none` when the payload carries no error). -/
structure SubmitEnv where
  stripeAvailable : Bool
  elements : Option ElementsHandle
  confirmResponse : Option String
deriving Repr, DecidableEq

/-- The `handleSubmit` handler (lines 73-99), returning the new state and
the list of calls issued to the confirmation capability.
`setProcessing(true)` runs first; then the handler is gated on
`elements` and on `stripe`; inside both gates it calls
`confirmCardPayment` with the stored secret and the captured card, then
branches on `payload.error`. -/
def handleSubmit (s : CheckoutState) (env : SubmitEnv) :
    CheckoutState × List ConfirmCall :=
  let s1 := { s with processing := true }
  match env.elements with
  | none => (s1, [])
  | some els =>
    if env.stripeAvailable then
      let call : ConfirmCall := { secret := s.clientSecret, card := els.cardElement }
      match env.confirmResponse with
      | some msg =>
          ({ s1 with error := some ("Payment failed " ++ msg), processing := false },
           [call])
      | none =>
          ({ s1 with error := none, processing := false, succeeded := true },
           [call])
    else (s1, [])

/-- The submit button's `disabled` attribute:
`processing || disabled || succeeded` (line 146). -/
def submitButtonDisabled (s : CheckoutState) : Bool :=
  s.processing || s.disabled || s.succeeded

/-- The spinner is rendered inside the button exactly when `processing`
is true (lines 150-154). -/
def spinnerShown (s : CheckoutState) : Bool :=
  s.processing

/-- The success panel drops the `hidden` style exactly when `succeeded`
is true (lines 168-173). -/
def successPanelVisible (s : CheckoutState) : Bool :=
  s.succeeded

/-- The inline error element renders the stored message when `error` is
truthy: non-null and not the empty string (lines 158-166). -/
def displayedError (s : CheckoutState) : Option String :=
  match s.error with
  | none => none
  | some m => if m = "" then none else some m

/-- The total heading text rendered at lines 185-187. -/
def totalHeading (numCourses : Nat) : String :=
  "Total: $" ++ toString (numCourses * 20)

/-- A UI event in one session: a widget change notification, a form
submission made in a given environment, or an intent response arriving
from the backend. -/
inductive Event where
  | change (e : CardChangeEvent)
  | submit (env : SubmitEnv)
  | intentResponse (secret : String)
deriving Repr, DecidableEq

/-- One step of the session. A submission can only fire while the submit
button is enabled; a click on a disabled button does nothing and issues no
call. -/
def step (s : CheckoutState) (ev : Event) : CheckoutState × List ConfirmCall :=
  match ev with
  | Event.change e => (handleChange s e, [])
  | Event.submit env =>
      if submitButtonDisabled s then (s, []) else handleSubmit s env
  | Event.intentResponse secret => (storeClientSecret s secret, [])

/-- Run a session from a state over a list of events. -/
def run : CheckoutState → List Event → CheckoutState
  | s, [] => s
  | s, ev :: rest => run (step s ev).1 rest

/-- Process a sequence of widget change events. -/
def runChanges (s : CheckoutState) (evs : List CardChangeEvent) : CheckoutState :=
  evs.foldl handleChange s

/-! ### Helper lemmas -/

lemma step_processing_mono (s : CheckoutState) (ev : Event)
    (h : s.processing = true) : (step s ev).1.processing = true := by
  cases ev with
  | change e => simpa [step, handleChange] using h
  | submit env => simp [step, submitButtonDisabled, h]
  | intentResponse secret => simpa [step, storeClientSecret] using h

lemma run_processing_mono (evs : List Event) (s : CheckoutState)
    (h : s.processing = true) : (run s evs).processing = true := by
  induction evs generalizing s with
  | nil => simpa [run] using h
  | cons ev rest ih => exact ih _ (step_processing_mono s ev h)

lemma step_succeeded_mono (s : CheckoutState) (ev : Event)
    (h : s.succeeded = true) : (step s ev).1.succeeded = true := by
  cases ev with
  | change e => simpa [step, handleChange] using h
  | submit env => simp [step, submitButtonDisabled, h]
  | intentResponse secret => simpa [step, storeClientSecret] using h

lemma run_succeeded_mono (evs : List Event) (s : CheckoutState)
    (h : s.succeeded = true) : (run s evs).succeeded = true := by
  induction evs generalizing s with
  | nil => simpa [run] using h
  | cons ev rest ih => exact ih _ (step_succeeded_mono s ev h)

lemma payment_failed_append_ne_empty (msg : String) :
    "Payment failed " ++ msg ≠ "" := by
  intro h
  have hlen := congrArg String.length h
  rw [String.length_append] at hlen
  have h15 : ("Payment failed ").length = 15 := by decide
  have h0 : ("" : String).length = 0 := by decide
  rw [h15, h0] at hlen
  omega

/-! ### Claims -/

/-- C1 counterexample: the claim says the confirmation capability is called
only when a non-empty client secret has been stored. In the state with an
empty `clientSecret` and the card field filled (button enabled), a
submission with `stripe` and `elements` present still issues the
confirmation call, passing the empty secret. -/
theorem C1_counterexample :
    (CheckoutState.mk false none false false "").clientSecret = "" ∧
    (step (CheckoutState.mk false none false false "")
        (Event.submit (SubmitEnv.mk true (some (ElementsHandle.mk "card")) none))).2 =
      [ConfirmCall.mk "" "card"] := by
  decide

/-- C1 (amended): the confirmation call is gated on the presence of the
`stripe` and `elements` handles only, not on the client secret: the handler
issues a call exactly when both handles are available, every call it issues
passes the stored client secret (which may be empty), and whenever no call
is issued (either handle absent) the handler still leaves `processing`
set to true, so the transition into Processing happens on every
submission. -/
theorem C1_gating (s : CheckoutState) (env : SubmitEnv) :
    ((handleSubmit s env).2 ≠ [] ↔
      env.stripeAvailable = true ∧ env.elements.isSome = true)
    ∧ (handleSubmit s env).2.all (fun c => c.secret == s.clientSecret) = true
    ∧ ((handleSubmit s env).2 = [] → (handleSubmit s env).1.processing = true) := by
  rcases env with ⟨stripeA, els, resp⟩
  cases els with
  | none => simp [handleSubmit]
  | some e =>
    cases stripeA with
    | false => simp [handleSubmit]
    | true => cases resp with
      | none => simp [handleSubmit]
      | some msg => simp [handleSubmit]

/-- Witness for the amended C1 at a concrete environment with the
`stripe` handle absent: no call is issued and processing is set. -/
theorem C1_witness :
    ((handleSubmit (CheckoutState.mk false none false false "")
        (SubmitEnv.mk false (some (ElementsHandle.mk "card")) none)).2 ≠ [] ↔
      (SubmitEnv.mk false (some (ElementsHandle.mk "card")) none).stripeAvailable = true ∧
      (SubmitEnv.mk false (some (ElementsHandle.mk "card")) none).elements.isSome = true)
    ∧ (handleSubmit (CheckoutState.mk false none false false "")
        (SubmitEnv.mk false (some (ElementsHandle.mk "card")) none)).2.all
        (fun c => c.secret == (CheckoutState.mk false none false false "").clientSecret) = true
    ∧ ((handleSubmit (CheckoutState.mk false none false false "")
        (SubmitEnv.mk false (some (ElementsHandle.mk "card")) none)).2 = [] →
       (handleSubmit (CheckoutState.mk false none false false "")
        (SubmitEnv.mk false (some (ElementsHandle.mk "card")) none)).1.processing = true) :=
  C1_gating (CheckoutState.mk false none false false "")
    (SubmitEnv.mk false (some (ElementsHandle.mk "card")) none)

lemma handleSubmit_missing_handle (s : CheckoutState) (env : SubmitEnv)
    (h : env.stripeAvailable = false ∨ env.elements = none) :
    handleSubmit s env = ({ s with processing := true }, []) := by
  rcases env with ⟨stripeA, els, resp⟩
  rcases h with h | h
  · cases h
    cases els <;> simp [handleSubmit]
  · cases h
    simp [handleSubmit]

/-- C2: whenever `processing`, `disabled`, or `succeeded` is true, the
submit button is rendered disabled, so a submission event in any
environment issues no confirmation call and leaves the state unchanged. -/
theorem C2_no_call_while_flagged (s : CheckoutState) (env : SubmitEnv)
    (h : s.processing = true ∨ s.disabled = true ∨ s.succeeded = true) :
    submitButtonDisabled s = true ∧
    (step s (Event.submit env)).2 = [] ∧
    (step s (Event.submit env)).1 = s := by
  have hd : submitButtonDisabled s = true := by
    rcases h with h | h | h <;> simp [submitButtonDisabled, h]
  exact ⟨hd, by simp [step, hd], by simp [step, hd]⟩

/-- Witness for C2 at a concrete processing state. -/
theorem C2_witness :
    ((CheckoutState.mk false none true false "sec").processing = true ∨
     (CheckoutState.mk false none true false "sec").disabled = true ∨
     (CheckoutState.mk false none true false "sec").succeeded = true) ∧
    (submitButtonDisabled (CheckoutState.mk false none true false "sec") = true ∧
     (step (CheckoutState.mk false none true false "sec")
        (Event.submit (SubmitEnv.mk true (some (ElementsHandle.mk "card")) none))).2 = [] ∧
     (step (CheckoutState.mk false none true false "sec")
        (Event.submit (SubmitEnv.mk true (some (ElementsHandle.mk "card")) none))).1 =
       CheckoutState.mk false none true false "sec") :=
  ⟨Or.inl rfl,
   C2_no_call_while_flagged (CheckoutState.mk false none true false "sec")
     (SubmitEnv.mk true (some (ElementsHandle.mk "card")) none) (Or.inl rfl)⟩

/-- C3: when the confirmation capability is reachable (stripe and elements
present) and returns an error, the submission ends Failed: `processing` is
reset to false, `succeeded` stays false (it is false at submission time,
since the guard blocks submission once Succeeded), the stored message is
the fixed prefix concatenated with the provider's error text, and that
message is displayed. -/
theorem C3_error_to_failed (s : CheckoutState) (env : SubmitEnv) (msg : String)
    (hsucc : s.succeeded = false)
    (hstripe : env.stripeAvailable = true)
    (hels : env.elements.isSome = true)
    (hresp : env.confirmResponse = some msg) :
    (handleSubmit s env).1.processing = false ∧
    (handleSubmit s env).1.succeeded = false ∧
    (handleSubmit s env).1.error = some ("Payment failed " ++ msg) ∧
    displayedError (handleSubmit s env).1 = some ("Payment failed " ++ msg) := by
  rcases env with ⟨stripeA, els, resp⟩
  cases els with
  | none => simp at hels
  | some e =>
    cases hstripe
    cases hresp
    simp [handleSubmit, displayedError, hsucc, payment_failed_append_ne_empty msg]

/-- Witness for C3 at the spec's concrete example: error text
"card declined" yields the displayed message "Payment failed card
declined". -/
theorem C3_witness :
    initialState.succeeded = false ∧
    (handleSubmit initialState
        (SubmitEnv.mk true (some (ElementsHandle.mk "card"))
          (some "card declined"))).1.processing = false ∧
    (handleSubmit initialState
        (SubmitEnv.mk true (some (ElementsHandle.mk "card"))
          (some "card declined"))).1.succeeded = false ∧
    displayedError (handleSubmit initialState
        (SubmitEnv.mk true (some (ElementsHandle.mk "card"))
          (some "card declined"))).1 = some "Payment failed card declined" := by
  have h := C3_error_to_failed initialState
    (SubmitEnv.mk true (some (ElementsHandle.mk "card")) (some "card declined"))
    "card declined" rfl rfl rfl rfl
  exact ⟨rfl, h.1, h.2.1, by rw [h.2.2.2]; rfl⟩

/-- C4: when the confirmation capability is reachable and returns no
error, the submission ends Succeeded: `succeeded` is set, `processing` is
reset, the error is cleared, and the success panel is visible. -/
theorem C4_success_to_succeeded (s : CheckoutState) (env : SubmitEnv)
    (hstripe : env.stripeAvailable = true)
    (hels : env.elements.isSome = true)
    (hresp : env.confirmResponse = none) :
    (handleSubmit s env).1.succeeded = true ∧
    (handleSubmit s env).1.processing = false ∧
    (handleSubmit s env).1.error = none ∧
    successPanelVisible (handleSubmit s env).1 = true := by
  rcases env with ⟨stripeA, els, resp⟩
  cases els with
  | none => simp at hels
  | some e =>
    cases hstripe
    cases hresp
    simp [handleSubmit, successPanelVisible]

/-- Witness for C4 at a concrete successful confirmation. -/
theorem C4_witness :
    (handleSubmit initialState
        (SubmitEnv.mk true (some (ElementsHandle.mk "card")) none)).1.succeeded = true ∧
    (handleSubmit initialState
        (SubmitEnv.mk true (some (ElementsHandle.mk "card")) none)).1.processing = false ∧
    (handleSubmit initialState
        (SubmitEnv.mk true (some (ElementsHandle.mk "card")) none)).1.error = none ∧
    successPanelVisible (handleSubmit initialState
        (SubmitEnv.mk true (some (ElementsHandle.mk "card")) none)).1 = true :=
  C4_success_to_succeeded initialState
    (SubmitEnv.mk true (some (ElementsHandle.mk "card")) none) rfl rfl rfl

/-- C5: after any sequence of widget change events ending in event `e`,
the `disabled` flag equals `e.empty` and the stored error message equals
`e.error.message` when an error is present and the empty string
otherwise. -/
theorem C5_validation_projection (s : CheckoutState)
    (evs : List CardChangeEvent) (e : CardChangeEvent) :
    (runChanges s (evs ++ [e])).disabled = e.empty ∧
    (runChanges s (evs ++ [e])).error = some (match e.error with
      | some m => m
      | none => "") := by
  unfold runChanges
  rw [List.foldl_append]
  simp [handleChange]

/-- C6 counterexample: the claim says every submission attempt issues
exactly one confirmation call. With the button enabled but the `elements`
handle unavailable, a submission fires and issues zero calls. -/
theorem C6_counterexample :
    submitButtonDisabled (CheckoutState.mk false none false false "sec") = false ∧
    (step (CheckoutState.mk false none false false "sec")
        (Event.submit (SubmitEnv.mk true none none))).2 = [] := by
  decide

/-- C6 (amended): every submission attempt made while both the `stripe`
and `elements` handles are available issues exactly one confirmation
call, passing the stored client secret and the card instrument captured
by the widget; when either handle is unavailable the attempt issues no
call. -/
theorem C6_one_call_when_available (s : CheckoutState) (env : SubmitEnv)
    (els : ElementsHandle)
    (hstripe : env.stripeAvailable = true)
    (hels : env.elements = some els) :
    (handleSubmit s env).2 = [ConfirmCall.mk s.clientSecret els.cardElement] := by
  rcases env with ⟨stripeA, elsOpt, resp⟩
  cases hstripe
  cases hels
  cases resp <;> simp [handleSubmit]

/-- Witness for C6 at a concrete available environment. -/
theorem C6_witness :
    (SubmitEnv.mk true (some (ElementsHandle.mk "card")) none).stripeAvailable = true ∧
    (SubmitEnv.mk true (some (ElementsHandle.mk "card")) none).elements =
      some (ElementsHandle.mk "card") ∧
    (handleSubmit (CheckoutState.mk false none false false "sec")
        (SubmitEnv.mk true (some (ElementsHandle.mk "card")) none)).2 =
      [ConfirmCall.mk "sec" "card"] :=
  ⟨rfl, rfl,
   C6_one_call_when_available (CheckoutState.mk false none false false "sec")
     (SubmitEnv.mk true (some (ElementsHandle.mk "card")) none)
     (ElementsHandle.mk "card") rfl rfl⟩

/-- C7: Succeeded is terminal within a session: from any state with
`succeeded` true, after any further sequence of events `succeeded` is
still true and the submit button is still disabled. -/
theorem C7_succeeded_terminal (s : CheckoutState) (evs : List Event)
    (h : s.succeeded = true) :
    (run s evs).succeeded = true ∧ submitButtonDisabled (run s evs) = true := by
  have hs := run_succeeded_mono evs s h
  exact ⟨hs, by simp [submitButtonDisabled, hs]⟩

/-- Witness for C7: a succeeded state stays succeeded across a change,
a submission attempt and an intent response. -/
theorem C7_witness :
    (CheckoutState.mk true none false false "sec").succeeded = true ∧
    ((run (CheckoutState.mk true none false false "sec")
        [Event.change (CardChangeEvent.mk false none),
         Event.submit (SubmitEnv.mk true (some (ElementsHandle.mk "card")) none),
         Event.intentResponse "sec2"]).succeeded = true ∧
     submitButtonDisabled (run (CheckoutState.mk true none false false "sec")
        [Event.change (CardChangeEvent.mk false none),
         Event.submit (SubmitEnv.mk true (some (ElementsHandle.mk "card")) none),
         Event.intentResponse "sec2"]) = true) :=
  ⟨rfl,
   C7_succeeded_terminal (CheckoutState.mk true none false false "sec")
     [Event.change (CardChangeEvent.mk false none),
      Event.submit (SubmitEnv.mk true (some (ElementsHandle.mk "card")) none),
      Event.intentResponse "sec2"] rfl⟩

/-- C8: the rendered total heading shows `numCourses * 20` for every
non-negative integer `numCourses`. -/
theorem C8_total (numCourses : Nat) :
    totalHeading numCourses = "Total: $" ++ toString (numCourses * 20) := rfl

/-- C9: the intent request is a POST to the fixed endpoint ending in
`/payment/create-payment-intent`, its body carries exactly `numCourses`
course entries each with id "course" and the fixed minor-unit price 2599,
and a successful response's client secret is stored verbatim. -/
theorem C9_intent_request (numCourses : Nat) (s : CheckoutState) (secret : String) :
    (createPaymentIntentRequest numCourses).method = "POST" ∧
    (createPaymentIntentRequest numCourses).url =
      "https://localhost:5001" ++ "/payment/create-payment-intent" ∧
    (createPaymentIntentRequest numCourses).coursesToBuy =
      List.replicate numCourses (CourseItem.mk "course") ∧
    (createPaymentIntentRequest numCourses).coursesToBuy.length = numCourses ∧
    (createPaymentIntentRequest numCourses).price = 2599 ∧
    (storeClientSecret s secret).clientSecret = secret := by
  refine ⟨rfl, rfl, rfl, ?_, rfl, rfl⟩
  simp [createPaymentIntentRequest]

/-- C10: a submission fired while the `stripe` handle or the `elements`
handle is unavailable issues no confirmation call but still sets
`processing` to true, and `processing` then stays true for the rest of
the session: after any further events the spinner is shown and the
submit button is disabled. -/
theorem C10_stuck_processing (s : CheckoutState) (env : SubmitEnv)
    (henabled : submitButtonDisabled s = false)
    (hmissing : env.stripeAvailable = false ∨ env.elements = none) :
    (step s (Event.submit env)).2 = [] ∧
    (step s (Event.submit env)).1.processing = true ∧
    ∀ evs : List Event,
      (run (step s (Event.submit env)).1 evs).processing = true ∧
      spinnerShown (run (step s (Event.submit env)).1 evs) = true ∧
      submitButtonDisabled (run (step s (Event.submit env)).1 evs) = true := by
  have hstep : step s (Event.submit env) = ({ s with processing := true }, []) := by
    simp [step, henabled, handleSubmit_missing_handle s env hmissing]
  refine ⟨by rw [hstep], by rw [hstep], ?_⟩
  intro evs
  rw [hstep]
  have hp : (run { s with processing := true } evs).processing = true :=
    run_processing_mono evs _ rfl
  exact ⟨hp, by simpa [spinnerShown] using hp, by simp [submitButtonDisabled, hp]⟩

/-- Witness for C10: a concrete submission with the stripe handle null,
followed by three further events, leaves the spinner on and the button
disabled. -/
theorem C10_witness :
    submitButtonDisabled (CheckoutState.mk false none false false "") = false ∧
    ((SubmitEnv.mk false (some (ElementsHandle.mk "card")) none).stripeAvailable = false ∨
     (SubmitEnv.mk false (some (ElementsHandle.mk "card")) none).elements = none) ∧
    (step (CheckoutState.mk false none false false "")
        (Event.submit (SubmitEnv.mk false (some (ElementsHandle.mk "card")) none))).2 = [] ∧
    (run (step (CheckoutState.mk false none false false "")
        (Event.submit (SubmitEnv.mk false (some (ElementsHandle.mk "card")) none))).1
      [Event.intentResponse "sec",
       Event.change (CardChangeEvent.mk false none),
       Event.submit (SubmitEnv.mk true (some (ElementsHandle.mk "card")) none)]).processing
      = true :=
  ⟨rfl, Or.inl rfl,
   (C10_stuck_processing (CheckoutState.mk false none false false "")
     (SubmitEnv.mk false (some (ElementsHandle.mk "card")) none) rfl (Or.inl rfl)).1,
   ((C10_stuck_processing (CheckoutState.mk false none false false "")
     (SubmitEnv.mk false (some (ElementsHandle.mk "card")) none) rfl (Or.inl rfl)).2.2
     [Event.intentResponse "sec",
      Event.change (CardChangeEvent.mk false none),
      Event.submit (SubmitEnv.mk true (some (ElementsHandle.mk "card")) none)]).1⟩

end CheckoutForm
